import Mathlib

/-
Verification of the surf caching middleware (src/src/lib.rs and
src/src/managers/cacache.rs) via a shallow embedding.

Modelling conventions:
- HTTP methods, URLs, requests and responses are translated structurally.
  Bodies are modelled as strings; the repository never inspects body
  content, it only moves it between `body_string` / `body_bytes` /
  `set_body` calls.
- The `http_types` header multimap is modelled as an association list from
  header name to the list of values for that name.  `HeaderValues.as_str`
  (used by `lib.rs` and `cacache.rs` whenever a multi-valued header is read
  as a single string) is modelled as the first value of the list.  Header
  name normalisation is elided: every access in the repository uses the
  same literal names ("Warning", "Cache-Control").
- Effects are made explicit: the abstract `CacheManager` of `lib.rs`
  becomes a key-value store threaded through the functions, the `next`
  handler of surf becomes a function `Request -> Except String Response`,
  and every manager / network interaction is recorded in a trace.
- `SystemTime::now` (used only to format warning dates) is passed in as an
  explicit `now : String` argument.
- `unimplemented!()` calls panic in Rust; they are modelled by the
  `Outcome.panicked` result.
-/

namespace SurfCache

/-- HTTP method, as used by the repository (surf / http_types `Method`).
Only the variants the code distinguishes matter: GET and HEAD are special,
everything else goes through the non-cacheable path. -/
inductive Method where
  | Get
  | Head
  | Post
  | Put
  | Delete
deriving DecidableEq, Repr

/-- Display form of a method, as produced by the Rust `Display` instance and
used in `format!("{}:{}", req.method(), req.url())`. -/
def Method.render : Method → String
  | .Get => "GET"
  | .Head => "HEAD"
  | .Post => "POST"
  | .Put => "PUT"
  | .Delete => "DELETE"

/-- A URL, reduced to the two observations the repository makes of it:
`url.host()` (an `Option`, absent for host-less URLs) and its display
string (used in the cache key). -/
structure Url where
  host : Option String
  text : String
deriving DecidableEq, Repr

/-- Header multimap: association list from header name to the values stored
under that name, in insertion order (models the `http_types` `Headers`
multimap). -/
abbrev Headers := List (String × List String)

/-- Lookup of all values of a header name (models `headers.get(name)` /
`res.header(name)` returning `Option HeaderValues`). -/
def headerGet : Headers → String → Option (List String)
  | [], _ => none
  | (n, vs) :: h, name => if n = name then some vs else headerGet h name

/-- `append_header`: adds one more value under `name`, creating the entry at
the end if the name is absent. -/
def appendHeader : Headers → String → String → Headers
  | [], name, v => [(name, [v])]
  | (n, vs) :: h, name, v =>
    if n = name then (n, vs ++ [v]) :: h else (n, vs) :: appendHeader h name v

/-- `insert_header` with a single value: replaces all values stored under
`name` by the one given, creating the entry at the end if absent. -/
def insertHeader : Headers → String → String → Headers
  | [], name, v => [(name, [v])]
  | (n, vs) :: h, name, v =>
    if n = name then (name, [v]) :: h else (n, vs) :: insertHeader h name v

/-- `remove_header`: drops every entry stored under `name`. -/
def removeHeader : Headers → String → Headers
  | [], _ => []
  | (n, vs) :: h, name =>
    if n = name then removeHeader h name else (n, vs) :: removeHeader h name

/-- An HTTP response: status code, header multimap, body. -/
structure Response where
  status : Nat
  headers : Headers
  body : String
deriving DecidableEq, Repr

/-- An HTTP request: method, url, header multimap. -/
structure Request where
  method : Method
  url : Url
  headers : Headers
deriving DecidableEq, Repr

/-- `req_key` (src/src/managers/cacache.rs): the cache key
`format!("{}:{}", req.method(), req.url())`.  The abstract `CacheManager`
of lib.rs is keyed the same way (the spec fixes this derivation). -/
def req_key (req : Request) : String :=
  req.method.render ++ ":" ++ req.url.text

/-- First value of a header of a response read as a single string (models
the `hdr.as_str()` reads on `HeaderValues`). -/
def headerFirst (res : Response) (name : String) : Option String :=
  (headerGet res.headers name).map (fun vs => vs.headD "")

/-- Helper for the whitespace split: walks the characters, accumulating the
current token reversed. -/
def splitWSAux : List Char → List Char → List String
  | [], [] => []
  | [], acc => [⟨acc.reverse⟩]
  | c :: cs, acc =>
    if c.isWhitespace then
      match acc with
      | [] => splitWSAux cs []
      | _ => (⟨acc.reverse⟩ : String) :: splitWSAux cs []
    else splitWSAux cs (c :: acc)

/-- Whitespace split (models Rust `str::split_whitespace`): maximal runs of
non-whitespace characters, no empty tokens. -/
def splitWS (s : String) : List String :=
  splitWSAux s.data []

/-- Digit-run parser: accumulates decimal digits, failing on any other
character. -/
def parseDigitsAux : List Char → Nat → Option Nat
  | [], acc => some acc
  | c :: cs, acc =>
    if c.isDigit then parseDigitsAux cs (acc * 10 + (c.toNat - 48)) else none

/-- Models Rust `str::parse::<usize>`: an optional leading plus sign, then
one or more decimal digits (overflow, irrelevant to three-digit warn
codes, is elided). -/
def parseUsize (s : String) : Option Nat :=
  match s.data with
  | [] => none
  | '+' :: [] => none
  | '+' :: rest => parseDigitsAux rest 0
  | l => parseDigitsAux l 0

/-- The warn code parsed out of one Warning header value: the second
whitespace-separated token, parsed as a number (models
`hdr.as_str().split_whitespace().nth(1).and_then(|code| code.parse().ok())`).
The code places the host first and the code second in a built value. -/
def warnCodeOfValue (v : String) : Option Nat :=
  ((splitWS v).get? 1).bind parseUsize

/-- `get_warning_code` (src/src/lib.rs): reads the Warning header of a
response and parses the code out of its first value. -/
def get_warning_code (res : Response) : Option Nat :=
  (headerFirst res "Warning").bind warnCodeOfValue

/-- List-level prefix test. -/
def startsWithL : List Char → List Char → Bool
  | _, [] => true
  | [], _ :: _ => false
  | c :: cs, p :: ps => c = p && startsWithL cs ps

/-- List-level substring test: the pattern occurs at some position. -/
def containsL : List Char → List Char → Bool
  | [], p => p.isEmpty
  | c :: cs, p => startsWithL (c :: cs) p || containsL cs p

/-- Substring test (models Rust `str::contains` for a string pattern). -/
def strContains (s pat : String) : Bool :=
  containsL s.data pat.data

/-- Lower-casing (models Rust `str::to_lowercase` on the ASCII header
values the repository handles). -/
def strToLower (s : String) : String :=
  ⟨s.data.map Char.toLower⟩

/-- `must_revalidate` (src/src/lib.rs): case-insensitive substring match of
"must-revalidate" inside the Cache-Control header value; absent header
means false. -/
def must_revalidate (res : Response) : Bool :=
  match headerGet res.headers "Cache-Control" with
  | some vs => strContains (strToLower (vs.headD "")) "must-revalidate"
  | none => false

/-- Escapes a string the way the Rust debug formatter `{:?}` does for the
characters the repository can actually produce (quote and backslash; other
escape classes are irrelevant to every claim). -/
def escapeDebug (s : String) : String :=
  s.data.foldl
    (fun acc c =>
      if c = '\"' then acc ++ "\\\""
      else if c = '\\' then acc ++ "\\\\"
      else acc.push c)
    ""

/-- The Warning header value built for a known host:
`format!("{} {} {:?} \"{}\"", host, code, message, http_date_now)`. -/
def warning_value (hst : String) (code : Nat) (message now : String) : String :=
  hst ++ " " ++ toString code ++ " \"" ++ escapeDebug message ++ "\" \"" ++ now ++ "\""

/-- `build_warning` (src/src/lib.rs): builds one Warning header value from
the URL host, the warn code, the message and the formatted current date.
The source calls `.expect("Invalid URL")` on the host, i.e. it panics when
the URL has no host; this is modelled by returning `none`. -/
def build_warning (url : Url) (code : Nat) (message now : String) : Option String :=
  url.host.map (fun h => warning_value h code message now)

/-- `CacheMode` (src/src/lib.rs). -/
inductive CacheMode where
  | Default
  | NoStore
  | Reload
  | NoCache
  | ForceCache
  | OnlyIfCached
deriving DecidableEq, Repr

/-- `clone_req` (src/src/lib.rs): a new request with the same method and
url, whose headers are rebuilt by `insert_header(key, values.as_str())` for
each header of the original, i.e. each header collapses to its first
value. -/
def clone_req (req : Request) : Request :=
  { method := req.method
    url := req.url
    headers :=
      req.headers.foldl (fun h kv => insertHeader h kv.1 (kv.2.headD "")) [] }

/-- State of the abstract `CacheManager` of lib.rs: a key-value mapping from
cache key to the stored response.  A `put` fully replaces the entry for a
key (newest binding shadows), `get` reads the newest binding, `delete`
removes every binding of the key. -/
abbrev Store := List (String × Response)

/-- Manager read (`CacheManager::get`). -/
def storeGet : Store → String → Option Response
  | [], _ => none
  | (k, r) :: s, key => if k = key then some r else storeGet s key

/-- Manager write (`CacheManager::put`): full replacement of the entry. -/
def storePut (s : Store) (key : String) (r : Response) : Store :=
  (key, r) :: s

/-- Manager removal (`CacheManager::delete`). -/
def storeDelete (s : Store) (key : String) : Store :=
  s.filter (fun kv => decide (¬ kv.1 = key))

/-- One observable interaction of the engine with its collaborators. -/
inductive CacheOp where
  | get (key : String)
  | put (key : String) (res : Response)
  | delete (key : String)
  | fetch (req : Request)
deriving DecidableEq, Repr

/-- Whether a trace entry is a network call. -/
def CacheOp.isFetch : CacheOp → Bool
  | .fetch _ => true
  | _ => false

/-- Whether a trace entry is a manager read. -/
def CacheOp.isGet : CacheOp → Bool
  | .get _ => true
  | _ => false

/-- Whether a trace entry is a manager write. -/
def CacheOp.isPut : CacheOp → Bool
  | .put _ _ => true
  | _ => false

/-- Result of a Rust call: a value, a propagated `http_types::Error`
(modelled by its display string, which the code interpolates into the 199
warning), or a panic (`unimplemented!()` / `.expect(..)`). -/
inductive Outcome where
  | ok (res : Response)
  | err (e : String)
  | panicked (msg : String)
deriving DecidableEq, Repr

/-- Result of running an engine entry point: the outcome, the manager state
afterwards, and the trace of collaborator interactions in order. -/
structure EngineResult where
  outcome : Outcome
  store : Store
  trace : List CacheOp
deriving DecidableEq, Repr

/-- Prepends already-performed interactions to a result's trace. -/
def withTrace (pre : List CacheOp) (r : EngineResult) : EngineResult :=
  { r with trace := pre ++ r.trace }

/-- `Cache::remote_fetch` (src/src/lib.rs lines 159-182).  Clones the
request, runs the next handler, then: if the mode is not NoStore, the
method is GET or HEAD and the status is 200, stores the response via the
manager `put` (which returns the response; the abstract trait returns the
possibly normalised response, modelled as the identity on it); otherwise,
if the method is not GET/HEAD, deletes the entry for the key and returns
the response; otherwise returns the response unmodified.  A next-handler
error propagates before any manager interaction. -/
def remote_fetch (mode : CacheMode) (next : Request → Except String Response)
    (store : Store) (req : Request) : EngineResult :=
  let copied_req := clone_req req
  match next req with
  | .error e => { outcome := .err e, store := store, trace := [.fetch req] }
  | .ok res =>
    let is_method_get_head :=
      copied_req.method = Method.Get ∨ copied_req.method = Method.Head
    if mode ≠ CacheMode.NoStore ∧ is_method_get_head ∧ res.status = 200 then
      { outcome := .ok res
        store := storePut store (req_key copied_req) res
        trace := [.fetch req, .put (req_key copied_req) res] }
    else if ¬ is_method_get_head then
      { outcome := .ok res
        store := storeDelete store (req_key copied_req)
        trace := [.fetch req, .delete (req_key copied_req)] }
    else
      { outcome := .ok res, store := store, trace := [.fetch req] }

/-- Modelled from the spec: `set_revalidation_headers` (src/src/lib.rs
lines 193-196) is stubbed in the source with `unimplemented!()` and a TODO
pointing at http-cache-semantics.  The spec (4.2 step 1, and the
`build_revalidation_headers` contract of section 6) says the revalidation
request is a clone of the original request plus the conditional validator
headers produced by the freshness policy.  The produced headers are taken
as a parameter `rv` and set on the request; method and url are
untouched. -/
def set_revalidation_headers (rv : List (String × String)) (req : Request) : Request :=
  { req with headers := rv.foldl (fun h kv => insertHeader h kv.1 kv.2) req.headers }

/-- `Cache::conditional_fetch` (src/src/lib.rs lines 90-157), from line 98
on (line 97 calls the spec-modelled `set_revalidation_headers`, see there):
clones the revalidation request, dispatches it through `remote_fetch`, and
interprets the outcome:
- success with a 5xx status while the stored response has must-revalidate:
  return the stored response with an appended 111 warning;
- success with status 304: build a merged response from the new status and
  headers and the stored body, persist it via manager `put` keyed on the
  cloned request, and return what `put` returns;
- any other success: return the stored response (line 122 of the source
  returns `cached_res`);
- transport error with must-revalidate: propagate the error;
- transport error without must-revalidate: return the stored response with
  appended 111 and 199 warnings. -/
def conditional_fetch (mode : CacheMode) (rv : List (String × String)) (now : String)
    (next : Request → Except String Response) (store : Store)
    (req : Request) (cached_res : Response) : EngineResult :=
  let req1 := set_revalidation_headers rv req
  let copied_req := clone_req req1
  let fr := remote_fetch mode next store req1
  match fr.outcome with
  | .panicked m => { fr with outcome := .panicked m }
  | .ok cond_res =>
    if (500 ≤ cond_res.status ∧ cond_res.status < 600) ∧ must_revalidate cached_res then
      match build_warning copied_req.url 111 "Revalidation failed" now with
      | some w =>
        { fr with outcome := .ok { cached_res with headers := appendHeader cached_res.headers "Warning" w } }
      | none => { fr with outcome := .panicked "Invalid URL" }
    else if cond_res.status = 304 then
      let merged : Response :=
        { status := cond_res.status
          headers := cond_res.headers.foldl
            (fun h kv => appendHeader h kv.1 (kv.2.headD "")) []
          body := cached_res.body }
      { outcome := .ok merged
        store := storePut fr.store (req_key copied_req) merged
        trace := fr.trace ++ [.put (req_key copied_req) merged] }
    else
      { fr with outcome := .ok cached_res }
  | .err e =>
    if must_revalidate cached_res then
      { fr with outcome := .err e }
    else
      match build_warning copied_req.url 111 "Revalidation failed" now,
        build_warning copied_req.url 199 ("Miscellaneous Warning " ++ e) now with
      | some w1, some w2 =>
        { fr with outcome := .ok { cached_res with
            headers := appendHeader (appendHeader cached_res.headers "Warning" w1) "Warning" w2 } }
      | _, _ => { fr with outcome := .panicked "Invalid URL" }

/-- The warning strip performed by `run` right after a cache hit
(src/src/lib.rs lines 49-63): if the entry's warning code is in [100,200),
the whole Warning header is removed. -/
def stripWarning (res : Response) : Response :=
  match get_warning_code res with
  | some wc =>
    if 100 ≤ wc ∧ wc < 200 then { res with headers := removeHeader res.headers "Warning" } else res
  | none => res

/-- `Cache::run` (src/src/lib.rs lines 34-88).  Dispatch:
- not (GET or HEAD) or mode in {NoStore, Reload}: straight to
  `remote_fetch`;
- otherwise manager `get`; on a hit, strip 1xx warnings, then:
  mode Default evaluates `is_stale(&req, &res)`, which the source stubs
  with `unimplemented!()`, so this arm panics; mode ForceCache or
  OnlyIfCached returns the entry with an appended 112 warning (panicking
  when the URL has no host, per `build_warning`); the remaining cacheable
  mode (NoCache) goes to `remote_fetch`;
- on a miss, mode OnlyIfCached panics (`unimplemented!()`, the ENOTCACHED
  comment in the source); otherwise `remote_fetch`. -/
def run (mode : CacheMode) (now : String) (next : Request → Except String Response)
    (store : Store) (req : Request) : EngineResult :=
  if ¬ ((req.method = Method.Get ∨ req.method = Method.Head)
      ∧ mode ≠ CacheMode.NoStore ∧ mode ≠ CacheMode.Reload) then
    remote_fetch mode next store req
  else
    match storeGet store (req_key req) with
    | some res0 =>
      let res := stripWarning res0
      if mode = CacheMode.Default then
        { outcome := .panicked "is_stale: stub", store := store, trace := [.get (req_key req)] }
      else if mode = CacheMode.ForceCache ∨ mode = CacheMode.OnlyIfCached then
        match build_warning req.url 112 "Disconnected operation" now with
        | some w =>
          { outcome := .ok { res with headers := appendHeader res.headers "Warning" w }
            store := store
            trace := [.get (req_key req)] }
        | none =>
          { outcome := .panicked "Invalid URL", store := store, trace := [.get (req_key req)] }
      else
        withTrace [.get (req_key req)] (remote_fetch mode next store req)
    | none =>
      if mode = CacheMode.OnlyIfCached then
        { outcome := .panicked "ENOTCACHED: stub", store := store, trace := [.get (req_key req)] }
      else
        withTrace [.get (req_key req)] (remote_fetch mode next store req)

/-- `Middleware::handle` for `Cache<T>` (src/src/lib.rs lines 246-257): it
runs the next handler and returns its result; it consults neither the mode
nor the cache manager. -/
def handle (mode : CacheMode) (store : Store) (next : Request → Except String Response)
    (req : Request) : EngineResult :=
  match next req with
  | .ok res => { outcome := .ok res, store := store, trace := [.fetch req] }
  | .error e => { outcome := .err e, store := store, trace := [.fetch req] }

/-- Header map of a stored entry (src/src/managers/cacache.rs
`StoredResponse.headers : HashMap<String, String>`): one value per name,
insert replaces.  Modelled as an association list; the round-trip claim is
stated up to ordering (lookup equality), matching the arbitrary iteration
order of a hash map. -/
abbrev CaHeaders := List (String × String)

/-- `HashMap::insert`: replace the value under the key, or add the pair. -/
def mapInsert : CaHeaders → String → String → CaHeaders
  | [], k, v => [(k, v)]
  | (k', v') :: m, k, v =>
    if k' = k then (k, v) :: m else (k', v') :: mapInsert m k v

/-- `HashMap::get`. -/
def mapLookup : CaHeaders → String → Option String
  | [], _ => none
  | (k', v') :: m, k => if k' = k then some v' else mapLookup m k

/-- `StoredResponse` (src/src/managers/cacache.rs): persisted body bytes
and header map.  Note the status code is not a field. -/
structure StoredResponse where
  body : String
  headers : CaHeaders
deriving DecidableEq, Repr

/-- The `Store` struct of src/src/managers/cacache.rs: a stored response
plus the `http_cache_semantics::CachePolicy`.  The policy is opaque to
this repository (it is serialised and handed back, never inspected), so it
is modelled as `Unit`. -/
structure CaStore where
  response : StoredResponse
  policy : Unit
deriving DecidableEq, Repr

/-- The cacache on-disk key-value map, threaded explicitly.  `bincode`
serialisation composed with deserialisation is modelled as the identity,
so entries are stored structurally. -/
abbrev CaDisk := List (String × CaStore)

/-- `cacache::read`: newest binding of the key, if any. -/
def diskRead : CaDisk → String → Option CaStore
  | [], _ => none
  | (k, st) :: d, key => if k = key then some st else diskRead d key

/-- `cacache::write`: the new binding shadows older ones. -/
def diskWrite (d : CaDisk) (key : String) (st : CaStore) : CaDisk :=
  (key, st) :: d

/-- `cacache::remove`: drops every binding of the key. -/
def diskRemove (d : CaDisk) (key : String) : CaDisk :=
  d.filter (fun kv => decide (¬ kv.1 = key))

/-- `to_store` (src/src/managers/cacache.rs lines 35-45): collapses the
response headers into the hash map via `insert` of `values.as_str()` (the
first value), and captures the body bytes.  In the source this consumes
the response body (`body_bytes` takes the body). -/
def to_store (res : Response) (policy : Unit) : CaStore :=
  { response :=
      { body := res.body
        headers := res.headers.foldl (fun m kv => mapInsert m kv.1 (kv.2.headD "")) [] }
    policy := policy }

/-- `from_store` (src/src/managers/cacache.rs lines 47-56): builds a fresh
response with status `StatusCode::Ok` (the stored status is not persisted),
re-inserts each stored header, and sets the stored body. -/
def from_store (store : CaStore) : Response :=
  { status := 200
    headers := store.response.headers.foldl (fun h kv => insertHeader h kv.1 kv.2) []
    body := store.response.body }

/-- `insert_header` called with a full `HeaderValues` (used by the`put` of
cacache.rs when rebuilding the returned response): replaces every value
stored under the name. -/
def insertHeaderVals : Headers → String → List String → Headers
  | [], name, vs => [(name, vs)]
  | (n, vs') :: h, name, vs =>
    if n = name then (name, vs) :: h else (n, vs') :: insertHeaderVals h name vs

namespace CACacheManager

/-- `CACacheManager::get` (src/src/managers/cacache.rs lines 72-80): read
the entry under the request's key (a read failure yields `None`),
deserialise it, and return the rebuilt response together with the stored
policy. -/
def get (disk : CaDisk) (req : Request) : Option (Response × Unit) :=
  match diskRead disk (req_key req) with
  | some store => some (from_store store, store.policy)
  | none => none

/-- `CACacheManager::put` (src/src/managers/cacache.rs lines 83-99):
serialise `to_store res policy` under the request's key, then rebuild the
returned response from the argument response: same status, a second
`body_bytes` read (which yields empty bytes, the body was consumed by
`to_store`), and the original header multimap re-inserted name by name. -/
def put (disk : CaDisk) (req : Request) (res : Response) (policy : Unit) :
    CaDisk × Response :=
  let data := to_store res policy
  let disk1 := diskWrite disk (req_key req) data
  let ret_res : Response :=
    { status := res.status
      body := ""
      headers := res.headers.foldl (fun h kv => insertHeaderVals h kv.1 kv.2) [] }
  (disk1, ret_res)

/-- `CACacheManager::delete` (src/src/managers/cacache.rs lines 101-103). -/
def delete (disk : CaDisk) (req : Request) : CaDisk :=
  diskRemove disk (req_key req)

end CACacheManager

/-- The list of Warning header values of a response (empty when the header
is absent). -/
def warningValues (res : Response) : List String :=
  (headerGet res.headers "Warning").getD []

/-- A next handler that always fails; used in scenarios whose point is that
the network is never reached. -/
def noNet : Request → Except String Response :=
  fun _ => Except.error "no backend"

/-- Concrete absolute URL used by the concrete scenarios (mirrors the URL
of the repository's own tests). -/
def exampleUrl : Url :=
  { host := some "example.com", text := "https://example.com/" }

/-- Concrete GET request at `exampleUrl`. -/
def exampleReq : Request :=
  { method := Method.Get, url := exampleUrl, headers := [] }

/-- Entry used by the Default-mode hit scenario. -/
def c5Entry : Response :=
  { status := 200, headers := [("Content-Type", ["text/html"])], body := "cached page" }

/-- A 404 response with a body; used to exhibit that the cacache round
trip forgets the status code. -/
def c3Res : Response :=
  { status := 404, headers := [("Content-Type", ["text/plain"])], body := "missing" }

/-- Stale stored response for the revalidation scenarios. -/
def c4Cached : Response :=
  { status := 200, headers := [("X-Flavor", ["old"])], body := "stale body" }

/-- Fresh 200 response produced by the origin in the revalidation
scenario. -/
def c4New : Response :=
  { status := 200, headers := [("X-Flavor", ["new"])], body := "fresh body" }

/-- Stored entry carrying a 1xx Warning (code 150), for the strip
scenario. -/
def c8Entry : Response :=
  { status := 200
    headers := [("Warning", ["example.com 150 \"some warning\" \"Mon, 01 Jan 2024 00:00:00 GMT\""])]
    body := "warned body" }

/-- Stored entry carrying a 1xx Warning (code 130), for the ForceCache
scenario. -/
def c10Entry : Response :=
  { status := 200
    headers := [("Warning", ["example.com 130 \"heads up\" \"Tue, 02 Jan 2024 00:00:00 GMT\""])]
    body := "second warned body" }

/-- Mirror of the repository test can_get_warning_code: a warning built
with code 111 parses back to 111. -/
theorem test_can_get_warning_code :
    (build_warning exampleUrl 111 "Revalidation failed" "Sun, 06 Nov 1994 08:49:37 GMT").bind
      warnCodeOfValue = some 111 := by
  decide

/-- Mirror of the repository test can_check_revalidate: must-revalidate is
found as a substring of the Cache-Control value, and a plain no-cache
value does not match. -/
theorem test_can_check_revalidate :
    must_revalidate
        { status := 200
          headers := [("Cache-Control", ["max-age=1733992, must-revalidate"])]
          body := "" } = true ∧
    must_revalidate
        { status := 200, headers := [("Cache-Control", ["no-cache"])], body := "" } = false := by
  decide

/-- Claim C1: the Middleware handle implementation forwards the request to
the next handler and returns its result unchanged, for every cache mode
and manager state: the manager state is untouched, the trace holds exactly
the forwarded network call, and the result does not depend on the mode or
on the stored entries, so the configured cache mode has no effect through
this entry point. -/
theorem c1_handle_passthrough (mode mode' : CacheMode) (store store' : Store)
    (next : Request → Except String Response) (req : Request) :
    handle mode store next req =
      { outcome :=
          match next req with
          | .ok res => Outcome.ok res
          | .error e => Outcome.err e
        store := store
        trace := [CacheOp.fetch req] } ∧
    (handle mode store next req).outcome = (handle mode' store' next req).outcome := by
  cases h : next req <;> simp [handle, h]

/-- Claim C2 (code bug): a GET in mode OnlyIfCached with no stored entry
does not produce a typed NotCached failure: the source hits
`unimplemented!()` (the ENOTCACHED comment), i.e. it panics, after the
manager read and without ever invoking the remote fetcher. -/
theorem c2_only_if_cached_miss_panics :
    run CacheMode.OnlyIfCached "Sun, 06 Nov 1994 08:49:37 GMT" noNet [] exampleReq =
      { outcome := Outcome.panicked "ENOTCACHED: stub"
        store := []
        trace := [CacheOp.get "GET:https://example.com/"] } ∧
    (run CacheMode.OnlyIfCached "Sun, 06 Nov 1994 08:49:37 GMT" noNet []
        exampleReq).trace.filter CacheOp.isFetch = [] := by
  constructor <;> rfl

/-- Claim C5 (code bug): in mode Default with a stored entry, run panics:
the freshness check `is_stale` is stubbed with `unimplemented!()` in the
source, so no freshness dispatch (fresh entry / conditional revalidation)
ever happens; the call aborts instead of producing a Response or a typed
failure. -/
theorem c5_default_hit_panics :
    run CacheMode.Default "Sun, 06 Nov 1994 08:49:37 GMT" noNet
        [(req_key exampleReq, c5Entry)] exampleReq =
      { outcome := Outcome.panicked "is_stale: stub"
        store := [(req_key exampleReq, c5Entry)]
        trace := [CacheOp.get "GET:https://example.com/"] } := by
  rfl

/-- Claim C3, counterexample: the cacache round trip does not preserve the
status code.  Storing a 404 response and reading it back yields a response
with status 200, because `from_store` rebuilds the response with
`StatusCode::Ok` and the `Store` struct has no status field. -/
theorem c3_roundtrip_counterexample :
    (CACacheManager.get (CACacheManager.put [] exampleReq c3Res ()).1 exampleReq).map
        (fun p => p.1.status) = some 200 ∧
    c3Res.status = 404 := by
  constructor <;> rfl

/-- Inserting a fresh key into the stored-header hash map appends it. -/
theorem mapInsert_of_notMem (m : CaHeaders) (k v : String)
    (h : k ∉ m.map Prod.fst) : mapInsert m k v = m ++ [(k, v)] := by
  induction m with
  | nil => rfl
  | cons p m ih =>
    simp only [List.map_cons, List.mem_cons, not_or] at h
    have h1 : ¬ p.1 = k := fun e => h.1 e.symm
    simp [mapInsert, h1, ih h.2]

/-- Inserting a fresh header name into a header multimap appends it. -/
theorem insertHeader_of_notMem (m : Headers) (k v : String)
    (h : k ∉ m.map Prod.fst) : insertHeader m k v = m ++ [(k, [v])] := by
  induction m with
  | nil => rfl
  | cons p m ih =>
    simp only [List.map_cons, List.mem_cons, not_or] at h
    have h1 : ¬ p.1 = k := fun e => h.1 e.symm
    simp [insertHeader, h1, ih h.2]

/-- Appending a value under a fresh header name appends a new entry. -/
theorem appendHeader_of_notMem (m : Headers) (k v : String)
    (h : k ∉ m.map Prod.fst) : appendHeader m k v = m ++ [(k, [v])] := by
  induction m with
  | nil => rfl
  | cons p m ih =>
    simp only [List.map_cons, List.mem_cons, not_or] at h
    have h1 : ¬ p.1 = k := fun e => h.1 e.symm
    simp [appendHeader, h1, ih h.2]

/-- Folding an upsert-style step over pairs with pairwise-distinct fresh
names just appends the embedded pairs, keeping their order. -/
theorem foldl_upsert_eq_append {α β : Type}
    (step : List (String × β) → String → α → List (String × β))
    (emb : α → β)
    (hstep : ∀ acc k v, k ∉ acc.map Prod.fst → step acc k v = acc ++ [(k, emb v)])
    (L : List (String × α)) :
    ∀ acc : List (String × β),
      (L.map Prod.fst).Nodup →
      (∀ p ∈ L, p.1 ∉ acc.map Prod.fst) →
      L.foldl (fun m kv => step m kv.1 kv.2) acc = acc ++ L.map (fun p => (p.1, emb p.2)) := by
  induction L with
  | nil => intro acc _ _; simp
  | cons p L ih =>
    intro acc hnd hdisj
    have hnd0 : p.1 ∉ L.map Prod.fst ∧ (L.map Prod.fst).Nodup := by
      rw [List.map_cons] at hnd
      exact List.nodup_cons.mp hnd
    have hp : p.1 ∉ acc.map Prod.fst := hdisj p (List.mem_cons_self p L)
    have hdisj' : ∀ q ∈ L, q.1 ∉ (acc ++ [(p.1, emb p.2)]).map Prod.fst := by
      intro q hq
      simp only [List.map_append, List.mem_append]
      rintro (hc | hc)
      · exact hdisj q (List.mem_cons_of_mem _ hq) hc
      · simp only [List.map_cons, List.map_nil, List.mem_singleton] at hc
        exact hnd0.1 (hc ▸ List.mem_map_of_mem Prod.fst hq)
    simp only [List.foldl_cons]
    rw [hstep acc p.1 p.2 hp, ih (acc ++ [(p.1, emb p.2)]) hnd0.2 hdisj']
    simp

/-- With pairwise-distinct header names, collapsing a header multimap into
the stored hash map keeps every name with its first value, in order. -/
theorem to_store_headers_eq (hs : Headers) (hnd : (hs.map Prod.fst).Nodup) :
    hs.foldl (fun m kv => mapInsert m kv.1 (kv.2.headD "")) [] =
      hs.map (fun p => (p.1, p.2.headD "")) := by
  have h := foldl_upsert_eq_append (fun m k vs => mapInsert m k (vs.headD ""))
    (fun vs => vs.headD "")
    (fun acc k vs hk => mapInsert_of_notMem acc k (vs.headD "") hk) hs [] hnd (by simp)
  simpa using h

/-- With pairwise-distinct names, rebuilding a header multimap from the
stored hash map produces each name with its single stored value. -/
theorem from_store_headers_eq (m : CaHeaders) (hnd : (m.map Prod.fst).Nodup) :
    m.foldl (fun h kv => insertHeader h kv.1 kv.2) [] =
      m.map (fun p => (p.1, [p.2])) := by
  have h := foldl_upsert_eq_append (fun h k v => insertHeader h k v)
    (fun v => [v])
    (fun acc k v hk => insertHeader_of_notMem acc k v hk) m [] hnd (by simp)
  simpa using h

/-- Header lookup through the singleton-value reshaping. -/
theorem headerGet_map_singleton (hs : Headers) (name : String) :
    headerGet (hs.map (fun p => (p.1, [p.2.headD ""]))) name
      = (headerGet hs name).map (fun vs => [vs.headD ""]) := by
  induction hs with
  | nil => rfl
  | cons p hs ih =>
    by_cases h : p.1 = name
    · simp [headerGet, h]
    · simp only [List.map_cons, headerGet, if_neg h]
      exact ih

/-- Claim C3, amended: `put(req, res)` followed by `get(req)` returns a
response whose body is byte-identical to what was stored and whose headers
agree with the stored response's headers as a name-to-first-value map (up
to ordering), but whose status code is always 200 OK: the stored status is
not persisted. -/
theorem c3_roundtrip_amended (disk : CaDisk) (req : Request) (res : Response) (pol : Unit)
    (hnd : (res.headers.map Prod.fst).Nodup) :
    CACacheManager.get (CACacheManager.put disk req res pol).1 req =
      some (from_store (to_store res pol), ()) ∧
    (from_store (to_store res pol)).status = 200 ∧
    (from_store (to_store res pol)).body = res.body ∧
    ∀ name, headerFirst (from_store (to_store res pol)) name = headerFirst res name := by
  refine ⟨?_, rfl, rfl, ?_⟩
  · simp [CACacheManager.get, CACacheManager.put, diskRead, diskWrite]
  · intro name
    have hhdr : (from_store (to_store res pol)).headers =
        res.headers.map (fun p => (p.1, [p.2.headD ""])) := by
      show (to_store res pol).response.headers.foldl
          (fun h kv => insertHeader h kv.1 kv.2) [] = _
      have hst : (to_store res pol).response.headers =
          res.headers.map (fun p => (p.1, p.2.headD "")) := to_store_headers_eq res.headers hnd
      rw [hst, from_store_headers_eq _ (by simpa using hnd)]
      simp
    simp only [headerFirst, hhdr, headerGet_map_singleton, Option.map_map]
    rfl

/-- Witness for the amended C3 round trip at a concrete 201 response with
two headers. -/
theorem c3_roundtrip_amended_witness :
    (((⟨201, [("A", ["1"]), ("B", ["2"])], "wbody"⟩ : Response).headers.map Prod.fst).Nodup) ∧
    CACacheManager.get
        (CACacheManager.put [] exampleReq (⟨201, [("A", ["1"]), ("B", ["2"])], "wbody"⟩ : Response) ()).1
        exampleReq =
      some (from_store (to_store (⟨201, [("A", ["1"]), ("B", ["2"])], "wbody"⟩ : Response) ()), ()) ∧
    headerFirst (from_store (to_store (⟨201, [("A", ["1"]), ("B", ["2"])], "wbody"⟩ : Response) ())) "A"
      = headerFirst (⟨201, [("A", ["1"]), ("B", ["2"])], "wbody"⟩ : Response) "A" :=
  ⟨by decide,
    (c3_roundtrip_amended [] exampleReq _ () (by decide)).1,
    (c3_roundtrip_amended [] exampleReq _ () (by decide)).2.2.2 "A"⟩

/-- Appending a Warning value puts it at the end of the existing value
list (or creates the header). -/
theorem headerGet_appendHeader (h : Headers) (name v : String) :
    headerGet (appendHeader h name v) name = some ((headerGet h name).getD [] ++ [v]) := by
  induction h with
  | nil => simp [appendHeader, headerGet]
  | cons p h ih =>
    by_cases e : p.1 = name
    · simp [appendHeader, headerGet, e]
    · simp only [appendHeader, if_neg e, headerGet]
      exact ih

/-- After removing a header no value is left under its name. -/
theorem headerGet_removeHeader (h : Headers) (name : String) :
    headerGet (removeHeader h name) name = none := by
  induction h with
  | nil => rfl
  | cons p h ih =>
    by_cases e : p.1 = name
    · simp [removeHeader, e, ih]
    · simp [removeHeader, e, headerGet, ih]

/-- When the URL has a host, `build_warning` yields the formatted value. -/
theorem build_warning_eq (url : Url) (code : Nat) (message now hst : String)
    (h : url.host = some hst) :
    build_warning url code message now = some (warning_value hst code message now) := by
  simp [build_warning, h]

/-- Cloning preserves the method and the url, hence the cache key. -/
theorem req_key_clone_req (req : Request) : req_key (clone_req req) = req_key req := rfl

/-- Setting revalidation headers preserves the method and url, hence the
cache key. -/
theorem req_key_set_revalidation_headers (rv : List (String × String)) (req : Request) :
    req_key (set_revalidation_headers rv req) = req_key req := rfl

/-- Cloning preserves the method. -/
theorem clone_req_method (req : Request) : (clone_req req).method = req.method := rfl

/-- Cloning preserves the url. -/
theorem clone_req_url (req : Request) : (clone_req req).url = req.url := rfl

/-- Setting revalidation headers preserves the method. -/
theorem set_revalidation_headers_method (rv : List (String × String)) (req : Request) :
    (set_revalidation_headers rv req).method = req.method := rfl

/-- Setting revalidation headers preserves the url. -/
theorem set_revalidation_headers_url (rv : List (String × String)) (req : Request) :
    (set_revalidation_headers rv req).url = req.url := rfl

/-- A failing next handler propagates out of remote_fetch before any
manager interaction. -/
theorem remote_fetch_error (mode : CacheMode) (next : Request → Except String Response)
    (store : Store) (req : Request) (e : String) (hnx : next req = .error e) :
    remote_fetch mode next store req =
      { outcome := .err e, store := store, trace := [CacheOp.fetch req] } := by
  simp [remote_fetch, hnx]

/-- A GET/HEAD fetch whose response status is not 200 is returned without
touching the manager. -/
theorem remote_fetch_ok_non200 (mode : CacheMode) (next : Request → Except String Response)
    (store : Store) (req : Request) (res : Response)
    (hnx : next req = .ok res)
    (hmeth : req.method = Method.Get ∨ req.method = Method.Head)
    (hstatus : ¬ res.status = 200) :
    remote_fetch mode next store req =
      { outcome := .ok res, store := store, trace := [CacheOp.fetch req] } := by
  rcases hmeth with h | h <;>
    simp [remote_fetch, hnx, clone_req_method, h, hstatus]

/-- A GET/HEAD 200 fetch in a storing mode is persisted via put and the
manager's response is returned. -/
theorem remote_fetch_ok_200 (mode : CacheMode) (next : Request → Except String Response)
    (store : Store) (req : Request) (res : Response)
    (hnx : next req = .ok res)
    (hmode : ¬ mode = CacheMode.NoStore)
    (hmeth : req.method = Method.Get ∨ req.method = Method.Head)
    (hstatus : res.status = 200) :
    remote_fetch mode next store req =
      { outcome := .ok res
        store := storePut store (req_key req) res
        trace := [CacheOp.fetch req, CacheOp.put (req_key req) res] } := by
  rcases hmeth with h | h <;>
    simp [remote_fetch, hnx, clone_req_method, h, hstatus, hmode, req_key_clone_req]

/-- A successful fetch for a non-GET/HEAD method deletes the entry for the
request's key and returns the response unmodified. -/
theorem remote_fetch_ok_nonGH (mode : CacheMode) (next : Request → Except String Response)
    (store : Store) (req : Request) (res : Response)
    (hnx : next req = .ok res)
    (hmeth : ¬ (req.method = Method.Get ∨ req.method = Method.Head)) :
    remote_fetch mode next store req =
      { outcome := .ok res
        store := storeDelete store (req_key req)
        trace := [CacheOp.fetch req, CacheOp.delete (req_key req)] } := by
  simp [remote_fetch, hnx, clone_req_method, hmeth, req_key_clone_req]

/-- Claim C7: when the revalidation fetch fails with a transport error,
conditional_fetch fails with that error and leaves the store untouched if
the stored response has must-revalidate; otherwise it returns the stale
stored response with exactly two Warning values appended, built with code
111 (Revalidation failed) then code 199 (Miscellaneous Warning plus the
error detail) in that order, no error reaching the caller, the store again
untouched. -/
theorem c7_transport_error (mode : CacheMode) (rv : List (String × String)) (now : String)
    (next : Request → Except String Response) (store : Store) (req : Request)
    (cached : Response) (e hst : String)
    (hfetch : next (set_revalidation_headers rv req) = .error e)
    (hhost : req.url.host = some hst) :
    (must_revalidate cached = true →
      conditional_fetch mode rv now next store req cached =
        { outcome := .err e
          store := store
          trace := [CacheOp.fetch (set_revalidation_headers rv req)] }) ∧
    (must_revalidate cached = false →
      conditional_fetch mode rv now next store req cached =
        { outcome := .ok { cached with
            headers := appendHeader
              (appendHeader cached.headers "Warning" (warning_value hst 111 "Revalidation failed" now))
              "Warning" (warning_value hst 199 ("Miscellaneous Warning " ++ e) now) }
          store := store
          trace := [CacheOp.fetch (set_revalidation_headers rv req)] } ∧
      headerGet
          (appendHeader
            (appendHeader cached.headers "Warning" (warning_value hst 111 "Revalidation failed" now))
            "Warning" (warning_value hst 199 ("Miscellaneous Warning " ++ e) now)) "Warning" =
        some (warningValues cached ++
          [warning_value hst 111 "Revalidation failed" now,
            warning_value hst 199 ("Miscellaneous Warning " ++ e) now])) := by
  have hfr : remote_fetch mode next store (set_revalidation_headers rv req) =
      { outcome := .err e
        store := store
        trace := [CacheOp.fetch (set_revalidation_headers rv req)] } := by
    simp [remote_fetch, hfetch]
  have hcurl : (clone_req (set_revalidation_headers rv req)).url = req.url := rfl
  constructor
  · intro hmr
    simp [conditional_fetch, hfr, hmr]
  · intro hmr
    constructor
    · simp [conditional_fetch, hfr, hmr, hcurl, build_warning_eq _ _ _ _ _ hhost]
    · rw [headerGet_appendHeader, headerGet_appendHeader]
      simp [warningValues]

/-- Witness for C7 at a concrete request, a concrete transport error and a
stored response without must-revalidate; the parsed warn codes of the two
appended values are 111 and 199. -/
theorem c7_transport_error_witness :
    ((fun _ : Request => (Except.error "connection refused" : Except String Response))
        (set_revalidation_headers [("If-None-Match", "etag-1")] exampleReq) =
      Except.error "connection refused") ∧
    exampleReq.url.host = some "example.com" ∧
    must_revalidate c4Cached = false ∧
    conditional_fetch CacheMode.Default [("If-None-Match", "etag-1")]
        "Thu, 04 Jan 2024 00:00:00 GMT"
        (fun _ => Except.error "connection refused") [] exampleReq c4Cached =
      { outcome := Outcome.ok { c4Cached with
          headers := appendHeader
            (appendHeader c4Cached.headers "Warning"
              (warning_value "example.com" 111 "Revalidation failed" "Thu, 04 Jan 2024 00:00:00 GMT"))
            "Warning"
            (warning_value "example.com" 199 ("Miscellaneous Warning " ++ "connection refused")
              "Thu, 04 Jan 2024 00:00:00 GMT") }
        store := []
        trace := [CacheOp.fetch
          (set_revalidation_headers [("If-None-Match", "etag-1")] exampleReq)] } ∧
    warnCodeOfValue
        (warning_value "example.com" 111 "Revalidation failed" "Thu, 04 Jan 2024 00:00:00 GMT") =
      some 111 ∧
    warnCodeOfValue
        (warning_value "example.com" 199 ("Miscellaneous Warning " ++ "connection refused")
          "Thu, 04 Jan 2024 00:00:00 GMT") =
      some 199 :=
  ⟨rfl, rfl, by decide,
    ((c7_transport_error CacheMode.Default [("If-None-Match", "etag-1")]
        "Thu, 04 Jan 2024 00:00:00 GMT" (fun _ => Except.error "connection refused") []
        exampleReq c4Cached "connection refused" "example.com" rfl rfl).2 (by decide)).1,
    by decide, by decide⟩

/-- Claim C6, counterexample: a 304 revalidation response carrying a
multi-valued header (Set-Cookie with values a, b) does not yield a merged
response with the new response's headers: the merge loop copies each
header via `values.as_str()`, i.e. its first value only, so the returned
headers keep only the first Set-Cookie value and drop the second. -/
theorem c6_counterexample :
    (conditional_fetch CacheMode.Default [] "Fri, 05 Jan 2024 00:00:00 GMT"
        (fun _ => Except.ok (⟨304, [("Set-Cookie", ["a", "b"])], ""⟩ : Response))
        [] exampleReq c4Cached).outcome =
      Outcome.ok
        (⟨304, [("Set-Cookie", ["a"])], c4Cached.body⟩ : Response) ∧
    ¬ ([("Set-Cookie", ["a"])] : Headers) = [("Set-Cookie", ["a", "b"])] ∧
    ¬ "b" ∈ ((headerGet [("Set-Cookie", ["a"])] "Set-Cookie").getD []) :=
  ⟨rfl, by decide, by decide⟩

/-- Claim C6, amended: when the revalidation fetch returns 304 Not
Modified, the returned response is the merge of the new status and, for
each header name of the new response in order, its first value only (the
merge copies each header through `values.as_str()`), over the stored body
unchanged byte-for-byte; exactly this merged response is persisted via
manager put keyed on the original request's cache key before being
returned.  Header names of the 304 response are pairwise distinct (the
shape of the http_types header multimap). -/
theorem c6_not_modified_merge_amended (mode : CacheMode) (rv : List (String × String))
    (now : String) (next : Request → Except String Response) (store : Store) (req : Request)
    (cached cond_res : Response)
    (hfetch : next (set_revalidation_headers rv req) = .ok cond_res)
    (hstatus : cond_res.status = 304)
    (hmeth : req.method = Method.Get ∨ req.method = Method.Head)
    (hnd : (cond_res.headers.map Prod.fst).Nodup) :
    conditional_fetch mode rv now next store req cached =
      { outcome := Outcome.ok
          { status := 304
            headers := cond_res.headers.map (fun p => (p.1, [p.2.headD ""]))
            body := cached.body }
        store := storePut store (req_key req)
          { status := 304
            headers := cond_res.headers.map (fun p => (p.1, [p.2.headD ""]))
            body := cached.body }
        trace := [CacheOp.fetch (set_revalidation_headers rv req),
          CacheOp.put (req_key req)
            { status := 304
              headers := cond_res.headers.map (fun p => (p.1, [p.2.headD ""]))
              body := cached.body }] } := by
  have hfr : remote_fetch mode next store (set_revalidation_headers rv req) =
      { outcome := .ok cond_res
        store := store
        trace := [CacheOp.fetch (set_revalidation_headers rv req)] } :=
    remote_fetch_ok_non200 mode next store (set_revalidation_headers rv req) cond_res
      hfetch hmeth (by rw [hstatus]; decide)
  have hmerge : cond_res.headers.foldl (fun h kv => appendHeader h kv.1 (kv.2.headD "")) [] =
      cond_res.headers.map (fun p => (p.1, [p.2.headD ""])) := by
    have hfold := foldl_upsert_eq_append (fun h k vs => appendHeader h k (vs.headD ""))
      (fun vs => [vs.headD ""])
      (fun acc k vs hk => appendHeader_of_notMem acc k (vs.headD "") hk)
      cond_res.headers [] hnd (by simp)
    rw [hfold]
    simp
  simp only [List.headD_eq_head?] at hmerge
  simp [conditional_fetch, hfr, hstatus, hmerge, req_key_clone_req,
    req_key_set_revalidation_headers]

/-- Witness for the amended C6 at the multi-valued 304 response of the
counterexample: the first Set-Cookie value survives, the body survives
byte-for-byte, and the merged response is put under the request's key. -/
theorem c6_not_modified_merge_amended_witness :
    ((fun _ : Request =>
        (Except.ok (⟨304, [("Set-Cookie", ["a", "b"])], ""⟩ : Response) :
          Except String Response))
        (set_revalidation_headers [] exampleReq) =
      Except.ok (⟨304, [("Set-Cookie", ["a", "b"])], ""⟩ : Response)) ∧
    (exampleReq.method = Method.Get ∨ exampleReq.method = Method.Head) ∧
    (((⟨304, [("Set-Cookie", ["a", "b"])], ""⟩ : Response).headers.map Prod.fst).Nodup) ∧
    conditional_fetch CacheMode.Default [] "Fri, 05 Jan 2024 00:00:00 GMT"
        (fun _ => Except.ok (⟨304, [("Set-Cookie", ["a", "b"])], ""⟩ : Response))
        [] exampleReq c4Cached =
      { outcome := Outcome.ok
          { status := 304
            headers := (⟨304, [("Set-Cookie", ["a", "b"])], ""⟩ : Response).headers.map
              (fun p => (p.1, [p.2.headD ""]))
            body := c4Cached.body }
        store := storePut [] (req_key exampleReq)
          { status := 304
            headers := (⟨304, [("Set-Cookie", ["a", "b"])], ""⟩ : Response).headers.map
              (fun p => (p.1, [p.2.headD ""]))
            body := c4Cached.body }
        trace := [CacheOp.fetch (set_revalidation_headers [] exampleReq),
          CacheOp.put (req_key exampleReq)
            { status := 304
              headers := (⟨304, [("Set-Cookie", ["a", "b"])], ""⟩ : Response).headers.map
                (fun p => (p.1, [p.2.headD ""]))
              body := c4Cached.body }] } :=
  ⟨rfl, Or.inl rfl, by decide,
    c6_not_modified_merge_amended CacheMode.Default [] "Fri, 05 Jan 2024 00:00:00 GMT"
      (fun _ => Except.ok (⟨304, [("Set-Cookie", ["a", "b"])], ""⟩ : Response))
      [] exampleReq c4Cached _ rfl rfl (Or.inl rfl) (by decide)⟩

/-- Claim C4, counterexample: a revalidation fetch that succeeds with
status 200 (not 304, not a server error) does not make conditional_fetch
return the new response, and does not leave the cache entry untouched: the
stale stored response is returned, and the entry has been replaced with
the new response by the inner remote_fetch. -/
theorem c4_counterexample :
    (conditional_fetch CacheMode.Default [] "Mon, 08 Jan 2024 00:00:00 GMT"
        (fun _ => Except.ok c4New) [(req_key exampleReq, c4Cached)] exampleReq
        c4Cached).outcome = Outcome.ok c4Cached ∧
    ¬ c4Cached = c4New ∧
    ¬ (conditional_fetch CacheMode.Default [] "Mon, 08 Jan 2024 00:00:00 GMT"
        (fun _ => Except.ok c4New) [(req_key exampleReq, c4Cached)] exampleReq
        c4Cached).store = [(req_key exampleReq, c4Cached)] :=
  ⟨rfl, by decide, by decide⟩

/-- In mode NoStore a GET/HEAD fetch is returned without any manager
interaction, whatever its status. -/
theorem remote_fetch_ok_nostore (next : Request → Except String Response)
    (store : Store) (req : Request) (res : Response)
    (hnx : next req = .ok res)
    (hmeth : req.method = Method.Get ∨ req.method = Method.Head) :
    remote_fetch CacheMode.NoStore next store req =
      { outcome := .ok res, store := store, trace := [CacheOp.fetch req] } := by
  rcases hmeth with h | h <;> simp [remote_fetch, hnx, clone_req_method, h]

/-- Claim C4, amended: when the revalidation fetch succeeds with a status
other than 304, conditional_fetch returns the stale stored response with a
111 warning appended if the new status is a server error and the stored
response has must-revalidate; in every other such case the stale stored
response is returned unmodified (not the new response), while the cache
entry has been replaced with the new response by the inner remote fetch
exactly when the new status is 200 and the mode stores. -/
theorem c4_non_304_revalidation (mode : CacheMode) (rv : List (String × String)) (now : String)
    (next : Request → Except String Response) (store : Store) (req : Request)
    (cached cond_res : Response) (hst : String)
    (hfetch : next (set_revalidation_headers rv req) = .ok cond_res)
    (hstatus : ¬ cond_res.status = 304)
    (hmeth : req.method = Method.Get ∨ req.method = Method.Head)
    (hhost : req.url.host = some hst) :
    ((500 ≤ cond_res.status ∧ cond_res.status < 600) ∧ must_revalidate cached = true →
      conditional_fetch mode rv now next store req cached =
        { outcome := Outcome.ok { cached with
            headers := appendHeader cached.headers "Warning"
              (warning_value hst 111 "Revalidation failed" now) }
          store := store
          trace := [CacheOp.fetch (set_revalidation_headers rv req)] }) ∧
    (¬ ((500 ≤ cond_res.status ∧ cond_res.status < 600) ∧ must_revalidate cached = true) →
      conditional_fetch mode rv now next store req cached =
        { outcome := Outcome.ok cached
          store := if ¬ mode = CacheMode.NoStore ∧ cond_res.status = 200
            then storePut store (req_key req) cond_res else store
          trace := if ¬ mode = CacheMode.NoStore ∧ cond_res.status = 200
            then [CacheOp.fetch (set_revalidation_headers rv req),
              CacheOp.put (req_key req) cond_res]
            else [CacheOp.fetch (set_revalidation_headers rv req)] }) := by
  constructor
  · intro h5
    have hn200 : ¬ cond_res.status = 200 := by
      have := h5.1.1
      omega
    have hfr := remote_fetch_ok_non200 mode next store (set_revalidation_headers rv req)
      cond_res hfetch hmeth hn200
    have hw := build_warning_eq req.url 111 "Revalidation failed" now hst hhost
    simp [conditional_fetch, hfr, h5.1, h5.2, clone_req_url, set_revalidation_headers_url, hw]
  · intro h5
    by_cases hc : ¬ mode = CacheMode.NoStore ∧ cond_res.status = 200
    · have hfr := remote_fetch_ok_200 mode next store (set_revalidation_headers rv req)
        cond_res hfetch hc.1 hmeth hc.2
      rw [if_pos hc, if_pos hc]
      have hns : ¬ ((500 ≤ cond_res.status ∧ cond_res.status < 600) ∧
          must_revalidate cached = true) := h5
      simp [conditional_fetch, hfr, hstatus, req_key_set_revalidation_headers, hc.2]
    · rw [if_neg hc, if_neg hc]
      by_cases hm2 : mode = CacheMode.NoStore
      · subst hm2
        have hfr := remote_fetch_ok_nostore next store (set_revalidation_headers rv req)
          cond_res hfetch hmeth
        by_cases h5a : 500 ≤ cond_res.status ∧ cond_res.status < 600
        · have hmr : ¬ must_revalidate cached = true := fun hb => h5 ⟨h5a, hb⟩
          simp [conditional_fetch, hfr, hstatus, h5a, hmr]
        · simp [conditional_fetch, hfr, hstatus, h5a]
      · have hn200 : ¬ cond_res.status = 200 := by
          intro h200
          exact hc ⟨hm2, h200⟩
        have hfr := remote_fetch_ok_non200 mode next store (set_revalidation_headers rv req)
          cond_res hfetch hmeth hn200
        by_cases h5a : 500 ≤ cond_res.status ∧ cond_res.status < 600
        · have hmr : ¬ must_revalidate cached = true := fun hb => h5 ⟨h5a, hb⟩
          simp [conditional_fetch, hfr, hstatus, h5a, hmr]
        · simp [conditional_fetch, hfr, hstatus, h5a]

/-- Witness for the amended C4 at a concrete 200 revalidation response:
the stale entry is returned and the store now holds the new response. -/
theorem c4_non_304_revalidation_witness :
    ((fun _ : Request => (Except.ok c4New : Except String Response))
        (set_revalidation_headers [] exampleReq) = Except.ok c4New) ∧
    ¬ c4New.status = 304 ∧
    ¬ ((500 ≤ c4New.status ∧ c4New.status < 600) ∧ must_revalidate c4Cached = true) ∧
    conditional_fetch CacheMode.Default [] "Mon, 08 Jan 2024 00:00:00 GMT"
        (fun _ => Except.ok c4New) [(req_key exampleReq, c4Cached)] exampleReq c4Cached =
      { outcome := Outcome.ok c4Cached
        store := if ¬ CacheMode.Default = CacheMode.NoStore ∧ c4New.status = 200
          then storePut [(req_key exampleReq, c4Cached)] (req_key exampleReq) c4New
          else [(req_key exampleReq, c4Cached)]
        trace := if ¬ CacheMode.Default = CacheMode.NoStore ∧ c4New.status = 200
          then [CacheOp.fetch (set_revalidation_headers [] exampleReq),
            CacheOp.put (req_key exampleReq) c4New]
          else [CacheOp.fetch (set_revalidation_headers [] exampleReq)] } :=
  ⟨rfl, by decide, by decide,
    (c4_non_304_revalidation CacheMode.Default [] "Mon, 08 Jan 2024 00:00:00 GMT"
      (fun _ => Except.ok c4New) [(req_key exampleReq, c4Cached)] exampleReq c4Cached c4New
      "example.com" rfl (by decide) (Or.inl rfl) rfl).2 (by decide)⟩

/-- Claim C9: for a request whose method is neither GET nor HEAD, run goes
straight to remote_fetch (no manager read happens before or after the
dispatch and no put ever happens), and on a successful response the entry
for the request's key is deleted and the response returned unmodified. -/
theorem c9_non_get_head (mode : CacheMode) (now : String)
    (next : Request → Except String Response) (store : Store) (req : Request)
    (hm : ¬ (req.method = Method.Get ∨ req.method = Method.Head)) :
    run mode now next store req = remote_fetch mode next store req ∧
    (run mode now next store req).trace.filter CacheOp.isGet = [] ∧
    (run mode now next store req).trace.filter CacheOp.isPut = [] ∧
    (∀ res, next req = Except.ok res →
      run mode now next store req =
        { outcome := Outcome.ok res
          store := storeDelete store (req_key req)
          trace := [CacheOp.fetch req, CacheOp.delete (req_key req)] }) := by
  have h1 : run mode now next store req = remote_fetch mode next store req := by
    simp [run, hm]
  refine ⟨h1, ?_, ?_, ?_⟩
  · rw [h1]
    cases hnx : next req with
    | error e => rw [remote_fetch_error mode next store req e hnx]; rfl
    | ok res => rw [remote_fetch_ok_nonGH mode next store req res hnx hm]; rfl
  · rw [h1]
    cases hnx : next req with
    | error e => rw [remote_fetch_error mode next store req e hnx]; rfl
    | ok res => rw [remote_fetch_ok_nonGH mode next store req res hnx hm]; rfl
  · intro res hnx
    rw [h1, remote_fetch_ok_nonGH mode next store req res hnx hm]

/-- Witness for C9 at a concrete POST request whose fetch succeeds: the
entry under the POST key is deleted and the response comes back as-is. -/
theorem c9_non_get_head_witness :
    ¬ (Method.Post = Method.Get ∨ Method.Post = Method.Head) ∧
    run CacheMode.Default "Wed, 10 Jan 2024 00:00:00 GMT"
        (fun _ => Except.ok (⟨200, [], "post result"⟩ : Response))
        [("POST:https://example.com/", c4Cached)]
        { method := Method.Post, url := exampleUrl, headers := [] } =
      { outcome := Outcome.ok (⟨200, [], "post result"⟩ : Response)
        store := storeDelete [("POST:https://example.com/", c4Cached)]
          (req_key { method := Method.Post, url := exampleUrl, headers := [] })
        trace := [CacheOp.fetch { method := Method.Post, url := exampleUrl, headers := [] },
          CacheOp.delete (req_key { method := Method.Post, url := exampleUrl, headers := [] })] } :=
  ⟨by decide,
    (c9_non_get_head CacheMode.Default "Wed, 10 Jan 2024 00:00:00 GMT"
      (fun _ => Except.ok (⟨200, [], "post result"⟩ : Response))
      [("POST:https://example.com/", c4Cached)]
      { method := Method.Post, url := exampleUrl, headers := [] }
      (by decide)).2.2.2 _ rfl⟩

/-- Claim C8, counterexample: an entry carrying Warning code 150 (a 1xx
code) served in mode ForceCache does not come back with no Warning header
at all: the returned response carries a Warning header again, holding the
freshly appended 112 value. -/
theorem c8_counterexample :
    (run CacheMode.ForceCache "Sat, 06 Jan 2024 00:00:00 GMT" noNet
        [(req_key exampleReq, c8Entry)] exampleReq).outcome =
      Outcome.ok
        (⟨200,
          [("Warning",
            [warning_value "example.com" 112 "Disconnected operation"
              "Sat, 06 Jan 2024 00:00:00 GMT"])],
          "warned body"⟩ : Response) ∧
    get_warning_code c8Entry = some 150 ∧
    ¬ headerGet
        [("Warning",
          [warning_value "example.com" 112 "Disconnected operation"
            "Sat, 06 Jan 2024 00:00:00 GMT"])] "Warning" = none :=
  ⟨rfl, by decide, by decide⟩

/-- Claim C8, amended: in the modes in which run returns the stored entry
(ForceCache and OnlyIfCached; mode Default panics on the stubbed freshness
check), an entry whose Warning code is in [100,200) comes back with no
stored Warning value: its Warning header holds exactly the freshly
appended 112 value; an entry whose Warning code is 2xx keeps its Warning
header, the fresh 112 value appended after the stored values. -/
theorem c8_warning_strip (mode : CacheMode) (now : String)
    (next : Request → Except String Response) (store : Store) (req : Request)
    (entry : Response) (hst : String) (wc : Nat)
    (hmode : mode = CacheMode.ForceCache ∨ mode = CacheMode.OnlyIfCached)
    (hmeth : req.method = Method.Get ∨ req.method = Method.Head)
    (hentry : storeGet store (req_key req) = some entry)
    (hhost : req.url.host = some hst)
    (hwc : get_warning_code entry = some wc) :
    (100 ≤ wc ∧ wc < 200 →
      run mode now next store req =
        { outcome := Outcome.ok
            { status := entry.status
              headers := appendHeader (removeHeader entry.headers "Warning") "Warning"
                (warning_value hst 112 "Disconnected operation" now)
              body := entry.body }
          store := store
          trace := [CacheOp.get (req_key req)] } ∧
      headerGet (appendHeader (removeHeader entry.headers "Warning") "Warning"
          (warning_value hst 112 "Disconnected operation" now)) "Warning" =
        some [warning_value hst 112 "Disconnected operation" now]) ∧
    (200 ≤ wc →
      run mode now next store req =
        { outcome := Outcome.ok { entry with
            headers := appendHeader entry.headers "Warning"
              (warning_value hst 112 "Disconnected operation" now) }
          store := store
          trace := [CacheOp.get (req_key req)] }) := by
  have hw := build_warning_eq req.url 112 "Disconnected operation" now hst hhost
  constructor
  · intro hr
    have hstrip : stripWarning entry =
        { entry with headers := removeHeader entry.headers "Warning" } := by
      simp [stripWarning, hwc, hr.1, hr.2]
    constructor
    · rcases hmode with h | h <;> subst h <;> rcases hmeth with hm | hm <;>
        simp [run, hentry, hm, hstrip, hw]
    · rw [headerGet_appendHeader, headerGet_removeHeader]
      rfl
  · intro hr2
    have hnr : ¬ (100 ≤ wc ∧ wc < 200) := by omega
    have hstrip : stripWarning entry = entry := by
      simp [stripWarning, hwc, hnr]
    rcases hmode with h | h <;> subst h <;> rcases hmeth with hm | hm <;>
      simp [run, hentry, hm, hstrip, hw]

/-- Witness for the amended C8: a 1xx entry (code 150) comes back with the
112 value as its only Warning value, and a 2xx entry (code 214) keeps its
Warning header with the 112 value appended. -/
theorem c8_warning_strip_witness :
    (CacheMode.ForceCache = CacheMode.ForceCache ∨
      CacheMode.ForceCache = CacheMode.OnlyIfCached) ∧
    storeGet [(req_key exampleReq, c8Entry)] (req_key exampleReq) = some c8Entry ∧
    get_warning_code c8Entry = some 150 ∧
    (100 ≤ 150 ∧ 150 < 200) ∧
    run CacheMode.ForceCache "Sat, 06 Jan 2024 00:00:00 GMT" noNet
        [(req_key exampleReq, c8Entry)] exampleReq =
      { outcome := Outcome.ok
          { status := c8Entry.status
            headers := appendHeader (removeHeader c8Entry.headers "Warning") "Warning"
              (warning_value "example.com" 112 "Disconnected operation"
                "Sat, 06 Jan 2024 00:00:00 GMT")
            body := c8Entry.body }
        store := [(req_key exampleReq, c8Entry)]
        trace := [CacheOp.get (req_key exampleReq)] } ∧
    headerGet (appendHeader (removeHeader c8Entry.headers "Warning") "Warning"
        (warning_value "example.com" 112 "Disconnected operation"
          "Sat, 06 Jan 2024 00:00:00 GMT")) "Warning" =
      some [warning_value "example.com" 112 "Disconnected operation"
        "Sat, 06 Jan 2024 00:00:00 GMT"] :=
  ⟨Or.inl rfl, by decide, by decide, by decide,
    ((c8_warning_strip CacheMode.ForceCache "Sat, 06 Jan 2024 00:00:00 GMT" noNet
        [(req_key exampleReq, c8Entry)] exampleReq c8Entry "example.com" 150
        (Or.inl rfl) (Or.inl rfl) (by decide) rfl (by decide)).1 (by decide)).1,
    ((c8_warning_strip CacheMode.ForceCache "Sat, 06 Jan 2024 00:00:00 GMT" noNet
        [(req_key exampleReq, c8Entry)] exampleReq c8Entry "example.com" 150
        (Or.inl rfl) (Or.inl rfl) (by decide) rfl (by decide)).1 (by decide)).2⟩

/-- Claim C10, counterexample: for a stored entry carrying a 1xx Warning
(code 130), the response returned in mode ForceCache is not the stored
entry plus one additional Warning value: the stored Warning value has been
stripped and is absent from the returned response. -/
theorem c10_counterexample :
    (run CacheMode.ForceCache "Tue, 09 Jan 2024 00:00:00 GMT" noNet
        [(req_key exampleReq, c10Entry)] exampleReq).outcome =
      Outcome.ok
        (⟨200,
          [("Warning",
            [warning_value "example.com" 112 "Disconnected operation"
              "Tue, 09 Jan 2024 00:00:00 GMT"])],
          "second warned body"⟩ : Response) ∧
    "example.com 130 \"heads up\" \"Tue, 02 Jan 2024 00:00:00 GMT\"" ∈
      warningValues c10Entry ∧
    ¬ "example.com 130 \"heads up\" \"Tue, 02 Jan 2024 00:00:00 GMT\"" ∈
      warningValues
        (⟨200,
          [("Warning",
            [warning_value "example.com" 112 "Disconnected operation"
              "Tue, 09 Jan 2024 00:00:00 GMT"])],
          "second warned body"⟩ : Response) :=
  ⟨rfl, by decide, by decide⟩

/-- Claim C10, amended: for a GET/HEAD request with a stored entry handled
in mode ForceCache or OnlyIfCached, run returns the stored entry after 1xx
Warning stripping with exactly one additional Warning value, built with
code 112 (Disconnected operation); the store is untouched and no network
call occurs. -/
theorem c10_force_cache (mode : CacheMode) (now : String)
    (next : Request → Except String Response) (store : Store) (req : Request)
    (entry : Response) (hst : String)
    (hmode : mode = CacheMode.ForceCache ∨ mode = CacheMode.OnlyIfCached)
    (hmeth : req.method = Method.Get ∨ req.method = Method.Head)
    (hentry : storeGet store (req_key req) = some entry)
    (hhost : req.url.host = some hst) :
    run mode now next store req =
      { outcome := Outcome.ok { stripWarning entry with
          headers := appendHeader (stripWarning entry).headers "Warning"
            (warning_value hst 112 "Disconnected operation" now) }
        store := store
        trace := [CacheOp.get (req_key req)] } ∧
    headerGet (appendHeader (stripWarning entry).headers "Warning"
        (warning_value hst 112 "Disconnected operation" now)) "Warning" =
      some (warningValues (stripWarning entry) ++
        [warning_value hst 112 "Disconnected operation" now]) ∧
    (run mode now next store req).trace.filter CacheOp.isFetch = [] := by
  have hw := build_warning_eq req.url 112 "Disconnected operation" now hst hhost
  have hrun : run mode now next store req =
      { outcome := Outcome.ok { stripWarning entry with
          headers := appendHeader (stripWarning entry).headers "Warning"
            (warning_value hst 112 "Disconnected operation" now) }
        store := store
        trace := [CacheOp.get (req_key req)] } := by
    rcases hmode with h | h <;> subst h <;> rcases hmeth with hm | hm <;>
      simp [run, hentry, hm, hw]
  refine ⟨hrun, ?_, ?_⟩
  · rw [headerGet_appendHeader]
    rfl
  · rw [hrun]
    rfl

/-- Witness for the amended C10: a fresh 112 warning is the single value
appended to the (stripped) entry, the store is unchanged and no fetch
appears in the trace. -/
theorem c10_force_cache_witness :
    (CacheMode.OnlyIfCached = CacheMode.ForceCache ∨
      CacheMode.OnlyIfCached = CacheMode.OnlyIfCached) ∧
    storeGet [(req_key exampleReq, c10Entry)] (req_key exampleReq) = some c10Entry ∧
    run CacheMode.OnlyIfCached "Tue, 09 Jan 2024 00:00:00 GMT" noNet
        [(req_key exampleReq, c10Entry)] exampleReq =
      { outcome := Outcome.ok { stripWarning c10Entry with
          headers := appendHeader (stripWarning c10Entry).headers "Warning"
            (warning_value "example.com" 112 "Disconnected operation"
              "Tue, 09 Jan 2024 00:00:00 GMT") }
        store := [(req_key exampleReq, c10Entry)]
        trace := [CacheOp.get (req_key exampleReq)] } ∧
    (run CacheMode.OnlyIfCached "Tue, 09 Jan 2024 00:00:00 GMT" noNet
        [(req_key exampleReq, c10Entry)] exampleReq).trace.filter CacheOp.isFetch = [] ∧
    warnCodeOfValue
        (warning_value "example.com" 112 "Disconnected operation"
          "Tue, 09 Jan 2024 00:00:00 GMT") = some 112 :=
  ⟨Or.inr rfl, by decide,
    (c10_force_cache CacheMode.OnlyIfCached "Tue, 09 Jan 2024 00:00:00 GMT" noNet
      [(req_key exampleReq, c10Entry)] exampleReq c10Entry "example.com"
      (Or.inr rfl) (Or.inl rfl) (by decide) rfl).1,
    (c10_force_cache CacheMode.OnlyIfCached "Tue, 09 Jan 2024 00:00:00 GMT" noNet
      [(req_key exampleReq, c10Entry)] exampleReq c10Entry "example.com"
      (Or.inr rfl) (Or.inl rfl) (by decide) rfl).2.2,
    by decide⟩

end SurfCache
